import Mathlib

/-!
Verification of the scoring / aggregation / recommendation core of the
Cybersecurity Maturity Self-Assessment tool (CMM.py).

The Python program keeps its state in a per-session dictionary; we embed
that state as an insertion-ordered association list, Python `dict`
semantics.  Scores are integers, averages are exact rationals, and the
`sum(s)/len(s)` division in the source — which raises `ZeroDivisionError`
on an empty sequence — is embedded as an `Option`-valued computation that
returns `none` exactly when the source would raise.
-/

set_option autoImplicit false

namespace CMM

/-- The keys of `cmm_rubric` (CMM.py lines 18-25): maturity levels 0-5.
These are exactly the `options` of every score selectbox (line 96). -/
def cmmLevels : List ℤ := [0, 1, 2, 3, 4, 5]

/-- `recommendation(score)` (CMM.py lines 28-38): ordered threshold bands,
first match wins, strict upper bounds. -/
def recommendation (score : ℚ) : String :=
  if score < 2 then "High priority for corrective action. Establish basic controls."
  else if score < 3 then "Moderate risk. Document and formalize processes."
  else if score < 4 then "Develop structured monitoring and review."
  else if score < 5 then "Consider optimization and automation."
  else "Maintain and share best practices."

/-- `nis2_domains` (CMM.py lines 41-66): domain name → ordered criteria. -/
def nis2Domains : List (String × List String) :=
  [ ("Governance",
      [ "Cybersecurity strategy aligned with organizational goals.",
        "Cyber roles and responsibilities assigned and reviewed.",
        "Executive oversight of cybersecurity established.",
        "Cybersecurity integrated into governance and compliance." ]),
    ("Risk Management",
      [ "Risk management framework implemented and maintained.",
        "Cyber risk assessments conducted and updated periodically.",
        "Third-party risks integrated into risk management.",
        "Risk treatment plans reviewed and acted upon." ]),
    ("Operational Security",
      [ "IT assets inventoried and classified.",
        "Access control policies enforced and reviewed.",
        "System vulnerabilities are patched promptly.",
        "Network segmentation and monitoring deployed." ]),
    ("Incident Management",
      [ "Incident response plan documented, tested, and updated.",
        "Reporting channels and detection tools established.",
        "Coordination with national CSIRTs or sector CSIRTs ensured.",
        "Post-incident review and continuous improvement cycle in place." ]) ]

/-- `nis2_sectors` (CMM.py lines 69-73). -/
def nis2Sectors : List String :=
  [ "Energy", "Transport", "Banking", "Financial Market Infrastructure",
    "Health", "Drinking Water", "Waste Water", "Digital Infrastructure",
    "ICT Service Management", "Public Administration", "Space" ]

/-- `sector_domains = {sector: nis2_domains for sector in nis2_sectors}`
(CMM.py line 74): every sector is mapped to the one shared catalog. -/
def sectorDomains : List (String × List (String × List String)) :=
  nis2Sectors.map (fun s => (s, nis2Domains))

/-- Python-dict lookup on an insertion-ordered association list. -/
def dictGet? {α : Type} (d : List (String × α)) (k : String) : Option α :=
  (d.find? (fun p => p.1 == k)).map (fun p => p.2)

/-- Python-dict assignment `d[k] = v`: overwrite in place if the key is
present, otherwise append (insertion order preserved). -/
def dictSet {α : Type} (d : List (String × α)) (k : String) (v : α) :
    List (String × α) :=
  if d.any (fun p => p.1 == k) then
    d.map (fun p => if p.1 == k then (k, v) else p)
  else d ++ [(k, v)]

/-- `st.session_state.scores`: domain name → ordered per-criterion scores. -/
abbrev Scores := List (String × List ℤ)

/-- `sum(s)/len(s)` — the per-domain average formula of CMM.py line 102
(also the overall-average formula of line 104). -/
def listAvg (s : List ℤ) : ℚ := (s.sum : ℚ) / (s.length : ℚ)

/-- `domain_averages = {d: sum(s)/len(s) for d, s in scores.items()}`
(CMM.py line 102).  The division is unconditional in the source, so an
empty score sequence raises `ZeroDivisionError`; that raise is embedded
as `none`. -/
def domainAverages : Scores → Option (List (String × ℚ))
  | [] => some []
  | p :: rest =>
    if p.2.isEmpty then none
    else (domainAverages rest).map (fun t => (p.1, listAvg p.2) :: t)

/-- `all_scores = [s for scores in st.session_state.scores.values() for s in scores]`
(CMM.py line 103): concatenation of all domains' score sequences in order. -/
def allScores : Scores → List ℤ
  | [] => []
  | p :: rest => p.2 ++ allScores rest

/-- `avg_score = sum(all_scores)/len(all_scores) if all_scores else 0`
(CMM.py line 104). -/
def avgScore (scores : Scores) : ℚ :=
  if allScores scores = [] then 0 else listAvg (allScores scores)

/-- The recommendations table `recs` (CMM.py lines 123-127): one row
(Domain, Avg Score, Recommendation) per entry of `domain_averages`. -/
def mkRecsTable (das : List (String × ℚ)) : List (String × ℚ × String) :=
  das.map (fun p => (p.1, p.2, recommendation p.2))

/-- Floor of a rational, written out on the numerator/denominator so that
it evaluates by `decide`. -/
def ratFloor (q : ℚ) : ℤ := q.num.fdiv (q.den : ℤ)

/-- Round to the nearest integer, ties to even — the rounding Python's
fixed-point float formatting performs. -/
def roundHalfEven (q : ℚ) : ℤ :=
  let f := ratFloor q
  let r := q - (f : ℚ)
  if r < 1 / 2 then f
  else if 1 / 2 < r then f + 1
  else if f % 2 = 0 then f else f + 1

/-- Python's fixed-point formatting `f"{x:.2f}"` on an exact value:
two digits after the decimal point. -/
def fmt2 (q : ℚ) : String :=
  let n := roundHalfEven (q * 100)
  let sign := if n < 0 then "-" else ""
  let m := n.natAbs
  let frac := m % 100
  sign ++ toString (m / 100) ++ "." ++ (if frac < 10 then "0" else "") ++ toString frac

/-- The per-domain lines written to the PDF (CMM.py lines 165-166):
for each row of the stored recommendations table,
`f"{row['Domain']}: {row['Recommendation']} ({row['Avg Score']:.2f})"`.
The builder only formats the stored rows; it computes nothing. -/
def reportLines (tbl : List (String × ℚ × String)) : List String :=
  tbl.map (fun r => r.1 ++ ": " ++ r.2.2 ++ " (" ++ fmt2 r.2.1 ++ ")")

/-- The per-session state the claims touch: the selected sector, the
scores dict (line 83), and the artifacts the Summary section stores for
the report (lines 130-132).  Figures are opaque; we track only whether
they have been stored. -/
structure Session where
  sector : String
  scores : Scores
  fig_summary : Bool
  fig_heatmap : Bool
  recs_table : Option (List (String × ℚ × String))
  deriving DecidableEq

/-- A fresh session: `scores` initialised to the empty dict (lines 82-83),
no Summary artifacts stored yet. -/
def freshSession (sector : String) : Session :=
  { sector := sector, scores := [], fig_summary := false,
    fig_heatmap := false, recs_table := none }

/-- The sector selectbox (CMM.py line 79) re-binds the `sector` variable;
no statement in the program touches `st.session_state.scores` when the
sector changes. -/
def switchSector (s : Session) (newSector : String) : Session :=
  { s with sector := newSector }

/-- One score input (CMM.py lines 96-98): the level comes from a selectbox
whose `options` are exactly `cmm_rubric.keys()` = 0..5, so a value outside
the options can never be selected or stored (Streamlit rejects a non-option
value for the widget); on success the criterion's entry in the domain's
score list is replaced and the list stored back into the scores dict.
`none` is the rejection: no new state is produced. -/
def setScore (st : Scores) (domain : String) (idx : ℕ) (level : ℤ) :
    Option Scores :=
  if level ∈ cmmLevels then
    some (dictSet st domain ((((dictGet? st domain).getD []).set idx level)))
  else none

/-- The Summary section (CMM.py lines 100-132): computes `domain_averages`
(propagating its `ZeroDivisionError` as `none`), builds the recommendations
table, and stores the figures and the table into the session. -/
def runSummary (s : Session) : Option Session :=
  match domainAverages s.scores with
  | none => none
  | some das =>
      some { s with fig_summary := true, fig_heatmap := true,
                    recs_table := some (mkRecsTable das) }

/-- The Generate Report handler (CMM.py lines 140-168): reads
`st.session_state.fig_summary`, `fig_heatmap` (line 152) and
`st.session_state.recs_table` (line 165).  If the Summary section was
never run these attributes do not exist and the handler dies with an
uncaught `AttributeError`; otherwise it emits one formatted line per
stored table row.  We model the recommendation-lines portion of the PDF;
header metadata and chart pages carry no scoring data. -/
def generateReport (s : Session) : Except String (List String) :=
  if s.fig_summary && s.fig_heatmap then
    match s.recs_table with
    | some tbl => Except.ok (reportLines tbl)
    | none => Except.error "AttributeError"
  else Except.error "AttributeError"

/-- C1: `recommendation` realises the ordered threshold table with strict
upper bounds — score < 2, [2,3), [3,4), [4,5), and ≥ 5 give the five band
texts — it is total on ℚ (no error path), and 1.9, 2, 3, 4, 5 hit the
five bands in order. -/
theorem recommendation_bands (s : ℚ) :
    (s < 2 → recommendation s = "High priority for corrective action. Establish basic controls.") ∧
    (2 ≤ s → s < 3 → recommendation s = "Moderate risk. Document and formalize processes.") ∧
    (3 ≤ s → s < 4 → recommendation s = "Develop structured monitoring and review.") ∧
    (4 ≤ s → s < 5 → recommendation s = "Consider optimization and automation.") ∧
    (5 ≤ s → recommendation s = "Maintain and share best practices.") := by
  refine ⟨fun h => ?_, fun h2 h3 => ?_, fun h3 h4 => ?_, fun h4 h5 => ?_, fun h5 => ?_⟩
  · rw [recommendation, if_pos h]
  · rw [recommendation, if_neg (not_lt.mpr h2), if_pos h3]
  · rw [recommendation, if_neg (not_lt.mpr (by linarith)), if_neg (not_lt.mpr h3), if_pos h4]
  · rw [recommendation, if_neg (not_lt.mpr (by linarith)), if_neg (not_lt.mpr (by linarith)),
      if_neg (not_lt.mpr h4), if_pos h5]
  · rw [recommendation, if_neg (not_lt.mpr (by linarith)), if_neg (not_lt.mpr (by linarith)),
      if_neg (not_lt.mpr (by linarith)), if_neg (not_lt.mpr h5)]

/-- C1 witness: the five sample scores 1.9, 2.0, 3.0, 4.0, 5.0 hit the
five bands in order. -/
theorem recommendation_bands_witness :
    recommendation (19 / 10) = "High priority for corrective action. Establish basic controls." ∧
    recommendation 2 = "Moderate risk. Document and formalize processes." ∧
    recommendation 3 = "Develop structured monitoring and review." ∧
    recommendation 4 = "Consider optimization and automation." ∧
    recommendation 5 = "Maintain and share best practices." :=
  ⟨(recommendation_bands (19 / 10)).1 (by norm_num),
   (recommendation_bands 2).2.1 le_rfl (by norm_num),
   (recommendation_bands 3).2.2.1 le_rfl (by norm_num),
   (recommendation_bands 4).2.2.2.1 le_rfl (by norm_num),
   (recommendation_bands 5).2.2.2.2 le_rfl⟩

/-- C2: the per-domain average computation of line 102 divides
unconditionally: on a state holding a domain with an empty score sequence
it raises `ZeroDivisionError` (embedded: `none`) instead of omitting or
excluding the empty domain, while a non-empty domain does get its
arithmetic mean. -/
theorem domainAverages_empty_domain_raises :
    domainAverages [("Governance", ([] : List ℤ))] = none ∧
    domainAverages [("Governance", [2, 4])] = some [("Governance", 3)] := by
  constructor
  · rfl
  · norm_num [domainAverages, listAvg]

/-- C3: the overall average is the mean of the concatenation of all
domains' score sequences when any score exists, and the explicit fallback
0 when none do; it is a total function into ℚ (no exception, no NaN). -/
theorem avgScore_spec (scores : Scores) :
    (allScores scores = [] → avgScore scores = 0) ∧
    (allScores scores ≠ [] →
      avgScore scores = ((allScores scores).sum : ℚ) / ((allScores scores).length : ℚ)) := by
  constructor
  · intro h; rw [avgScore, if_pos h]
  · intro h; rw [avgScore, if_neg h, listAvg]

/-- C3 witness: the fallback at the empty state, and the mean over the
concatenation on a two-domain state. -/
theorem avgScore_spec_witness :
    avgScore [] = 0 ∧
    (allScores [("Governance", [0, 1, 2, 3]), ("Risk Management", [4, 5])] ≠ [] ∧
      avgScore [("Governance", [0, 1, 2, 3]), ("Risk Management", [4, 5])]
        = ((allScores [("Governance", [0, 1, 2, 3]), ("Risk Management", [4, 5])]).sum : ℚ)
          / ((allScores [("Governance", [0, 1, 2, 3]), ("Risk Management", [4, 5])]).length : ℚ)) :=
  ⟨(avgScore_spec []).1 rfl,
   by decide,
   (avgScore_spec [("Governance", [0, 1, 2, 3]), ("Risk Management", [4, 5])]).2 (by decide)⟩

/-- C5: on a fresh session (no scores, Summary never run) the Generate
Report handler dies with an uncaught `AttributeError` — not an explicit
no-data result and not a user-facing rejection; and if Summary is run
over the empty scores dict first, the report succeeds silently with zero
recommendation lines — again no no-data message. -/
theorem generateReport_no_data_behavior :
    generateReport (freshSession "Energy") = Except.error "AttributeError" ∧
    (runSummary (freshSession "Energy")).map generateReport
      = some (Except.ok ([] : List String)) := by
  constructor
  · rfl
  · rfl

/-- C6 counterexample: a session with a filled Governance domain, switched
from sector Energy to Health: the scores are NOT cleared — the state is
not empty after the switch. -/
theorem switchSector_does_not_clear_cex :
    (switchSector
        { sector := "Energy", scores := [("Governance", [3, 3, 3, 3])],
          fig_summary := false, fig_heatmap := false, recs_table := none }
        "Health").scores ≠ [] := by
  decide

/-- C6 (amended): switching the selected sector re-binds only the sector;
the scores dict (and every other session field) is untouched, so all
prior scores persist across a sector change. -/
theorem switchSector_preserves_scores (s : Session) (newSector : String) :
    (switchSector s newSector).sector = newSector ∧
    (switchSector s newSector).scores = s.scores ∧
    (switchSector s newSector).recs_table = s.recs_table := by
  exact ⟨rfl, rfl, rfl⟩

/-- C7: a level outside [0,5] can never be stored: the score-entry
operation (whose admissible values are exactly the selectbox options
0..5) rejects it, producing no new state — nothing is clamped, nothing
is stored. -/
theorem setScore_rejects_out_of_range (st : Scores) (d : String) (i : ℕ)
    (level : ℤ) (h : level < 0 ∨ 5 < level) :
    setScore st d i level = none := by
  rw [setScore, if_neg]
  intro hmem
  simp only [cmmLevels, List.mem_cons, List.not_mem_nil, or_false] at hmem
  rcases h with h | h <;>
    rcases hmem with rfl | rfl | rfl | rfl | rfl | rfl <;> omega

/-- C7 witness: 6 and -1 are both rejected, on an empty state and on a
state already holding a Governance score. -/
theorem setScore_rejects_out_of_range_witness :
    ((5 : ℤ) < 6 ∧ setScore [] "Governance" 0 6 = none) ∧
    ((-1 : ℤ) < 0 ∧ setScore [("Governance", [3])] "Governance" 0 (-1) = none) :=
  ⟨⟨by norm_num, setScore_rejects_out_of_range [] "Governance" 0 6 (Or.inr (by norm_num))⟩,
   ⟨by norm_num,
    setScore_rejects_out_of_range [("Governance", [3])] "Governance" 0 (-1)
      (Or.inl (by norm_num))⟩⟩

/-- Looking a key up in a dict whose every entry carries the same constant
value yields that constant. -/
lemma dictGet_map_const {α : Type} (c : α) (l : List String) (k : String)
    (h : k ∈ l) : dictGet? (l.map (fun s => (s, c))) k = some c := by
  induction l with
  | nil => cases h
  | cons a t ih =>
    by_cases hak : a = k
    · subst hak
      simp [dictGet?]
    · have hbeq : (a == k) = false := beq_eq_false_iff_ne.mpr hak
      have hmem : k ∈ t := by
        rcases List.mem_cons.mp h with rfl | hm
        · exact absurd rfl hak
        · exact hm
      simp only [dictGet?, List.map_cons, List.find?_cons, hbeq]
      simpa [dictGet?] using ih hmem

/-- C9: any two sectors map to the identical domain/criteria structure:
`sector_domains` sends every sector to the one shared `nis2_domains`
catalog, so domain names, their order, and the ordered criterion lists
agree between any two sectors. -/
theorem sectorDomains_identical (s1 s2 : String)
    (h1 : s1 ∈ nis2Sectors) (h2 : s2 ∈ nis2Sectors) :
    dictGet? sectorDomains s1 = some nis2Domains ∧
    dictGet? sectorDomains s1 = dictGet? sectorDomains s2 := by
  have e1 : dictGet? sectorDomains s1 = some nis2Domains :=
    dictGet_map_const nis2Domains nis2Sectors s1 h1
  have e2 : dictGet? sectorDomains s2 = some nis2Domains :=
    dictGet_map_const nis2Domains nis2Sectors s2 h2
  exact ⟨e1, e1.trans e2.symm⟩

/-- C9 witness: sectors Energy and Space both resolve to the shared
catalog. -/
theorem sectorDomains_identical_witness :
    ("Energy" ∈ nis2Sectors ∧ "Space" ∈ nis2Sectors) ∧
    (dictGet? sectorDomains "Energy" = some nis2Domains ∧
      dictGet? sectorDomains "Energy" = dictGet? sectorDomains "Space") :=
  ⟨⟨by decide, by decide⟩,
   sectorDomains_identical "Energy" "Space" (by decide) (by decide)⟩

/-- C8: for a non-empty score sequence the average is sum/len; when every
element lies in [0,5] the average lies in [0,5]; and the Governance
scenario [0,1,2,3] averages 1.5 and draws the high-priority
recommendation. -/
theorem listAvg_bounds (s : List ℤ) (hne : s ≠ [])
    (hb : ∀ x ∈ s, 0 ≤ x ∧ x ≤ 5) :
    listAvg s = (s.sum : ℚ) / (s.length : ℚ) ∧
    0 ≤ listAvg s ∧ listAvg s ≤ 5 ∧
    listAvg [0, 1, 2, 3] = 3 / 2 ∧
    recommendation (listAvg [0, 1, 2, 3])
      = "High priority for corrective action. Establish basic controls." := by
  have hlen : 0 < s.length := List.length_pos.mpr hne
  have hsum0 : (0 : ℤ) ≤ s.sum := List.sum_nonneg (fun x hx => (hb x hx).1)
  have hsum5 : s.sum ≤ s.length • (5 : ℤ) :=
    List.sum_le_card_nsmul s 5 (fun x hx => (hb x hx).2)
  rw [nsmul_eq_mul] at hsum5
  have hq0 : (0 : ℚ) ≤ (s.sum : ℚ) := by exact_mod_cast hsum0
  have hql : (0 : ℚ) < (s.length : ℚ) := by exact_mod_cast hlen
  have hq5 : (s.sum : ℚ) ≤ (s.length : ℚ) * 5 := by exact_mod_cast hsum5
  have h32 : listAvg [0, 1, 2, 3] = 3 / 2 := by
    norm_num [listAvg, List.sum_cons, List.sum_nil]
  refine ⟨rfl, div_nonneg hq0 hql.le, ?_, h32, ?_⟩
  · rw [listAvg, div_le_iff₀ hql]
    linarith
  · rw [h32, recommendation, if_pos (by norm_num)]

/-- C8 witness: the Governance scenario scores [0,1,2,3] satisfy the
hypotheses and their average lies in [0,5]. -/
theorem listAvg_bounds_witness :
    (([0, 1, 2, 3] : List ℤ) ≠ [] ∧ (∀ x ∈ ([0, 1, 2, 3] : List ℤ), 0 ≤ x ∧ x ≤ 5)) ∧
    (0 ≤ listAvg [0, 1, 2, 3] ∧ listAvg [0, 1, 2, 3] ≤ 5 ∧
      listAvg [0, 1, 2, 3] = 3 / 2) :=
  ⟨⟨by decide, by decide⟩,
   ⟨(listAvg_bounds [0, 1, 2, 3] (by decide) (by decide)).2.1,
    (listAvg_bounds [0, 1, 2, 3] (by decide) (by decide)).2.2.1,
    (listAvg_bounds [0, 1, 2, 3] (by decide) (by decide)).2.2.2.1⟩⟩

/-- The sum of the concatenated scores, cast to ℚ, is the sum of the
per-domain sums. -/
lemma allScores_sum_q (scores : Scores) :
    ((allScores scores).sum : ℚ)
      = (scores.map (fun p => ((p.2.sum : ℤ) : ℚ))).sum := by
  induction scores with
  | nil => simp [allScores]
  | cons p rest ih =>
    simp only [allScores, List.map_cons, List.sum_cons, List.sum_append]
    push_cast at ih ⊢
    rw [ih]

/-- The length of the concatenated scores is the sum of the per-domain
lengths. -/
lemma allScores_length (scores : Scores) :
    (allScores scores).length = (scores.map (fun p => p.2.length)).sum := by
  induction scores with
  | nil => rfl
  | cons p rest ih => simp [allScores, ih]

/-- When every stored domain has a non-empty score sequence, the
`domain_averages` comprehension succeeds and maps each domain to its
mean. -/
lemma domainAverages_of_nonempty (scores : Scores)
    (h : ∀ p ∈ scores, p.2 ≠ []) :
    domainAverages scores = some (scores.map (fun p => (p.1, listAvg p.2))) := by
  induction scores with
  | nil => rfl
  | cons p rest ih =>
    have hp : ¬ (p.2.isEmpty = true) := by
      simpa [List.isEmpty_iff] using h p (List.mem_cons_self p rest)
    simp only [domainAverages, List.map_cons]
    rw [if_neg hp, ih (fun q hq => h q (List.mem_cons_of_mem p hq))]
    rfl

/-- Dividing each mapped value by a common constant divides the sum. -/
lemma sum_map_div (l : Scores) (f : String × List ℤ → ℚ) (c : ℚ) :
    (l.map (fun p => f p / c)).sum = (l.map f).sum / c := by
  induction l with
  | nil => simp
  | cons p rest ih => simp [ih, add_div]

/-- C10: on a state where every stored domain has the same positive number
k of scores (as in this catalog, 4 criteria per domain), `domain_averages`
is defined and the overall average of line 104 equals the unweighted
arithmetic mean of the per-domain averages of line 102. -/
theorem avgScore_eq_mean_of_uniform (scores : Scores) (k : ℕ) (hk : 0 < k)
    (hne : scores ≠ []) (hlen : ∀ p ∈ scores, p.2.length = k) :
    domainAverages scores = some (scores.map (fun p => (p.1, listAvg p.2))) ∧
    avgScore scores
      = (scores.map (fun p => listAvg p.2)).sum / (scores.length : ℚ) := by
  have hnonempty : ∀ p ∈ scores, p.2 ≠ [] := by
    intro p hp h0
    have := hlen p hp
    rw [h0] at this
    simp at this
    omega
  refine ⟨domainAverages_of_nonempty scores hnonempty, ?_⟩
  have hlentot : (allScores scores).length = scores.length * k := by
    rw [allScores_length]
    have hconst : scores.map (fun p => p.2.length) = scores.map (fun _ => k) :=
      List.map_congr_left (fun p hp => hlen p hp)
    rw [hconst, List.map_const', List.sum_replicate, smul_eq_mul]
  have hAne : allScores scores ≠ [] := by
    intro h0
    have hz : (allScores scores).length = 0 := by rw [h0]; rfl
    rw [hlentot] at hz
    have hm : 0 < scores.length := List.length_pos.mpr hne
    exact absurd hz (Nat.mul_ne_zero (by omega) (by omega))
  have hmap : scores.map (fun p => listAvg p.2)
      = scores.map (fun p => ((p.2.sum : ℤ) : ℚ) / (k : ℚ)) := by
    apply List.map_congr_left
    intro p hp
    rw [listAvg, hlen p hp]
  rw [avgScore, if_neg hAne, listAvg, allScores_sum_q, hlentot, hmap,
    sum_map_div scores (fun p => ((p.2.sum : ℤ) : ℚ)) (k : ℚ)]
  push_cast
  ring

/-- C10 witness: two domains with two scores each — the overall average
equals the mean of the two domain averages, and `domain_averages` is
defined. -/
theorem avgScore_eq_mean_of_uniform_witness :
    (0 < 2 ∧ ([("Governance", [1, 2]), ("Risk Management", [3, 4])] : Scores) ≠ [] ∧
      (∀ p ∈ ([("Governance", [1, 2]), ("Risk Management", [3, 4])] : Scores),
        p.2.length = 2)) ∧
    (domainAverages [("Governance", [1, 2]), ("Risk Management", [3, 4])]
        = some (([("Governance", [1, 2]), ("Risk Management", [3, 4])] : Scores).map
            (fun p => (p.1, listAvg p.2))) ∧
      avgScore [("Governance", [1, 2]), ("Risk Management", [3, 4])]
        = (([("Governance", [1, 2]), ("Risk Management", [3, 4])] : Scores).map
            (fun p => listAvg p.2)).sum
          / ((([("Governance", [1, 2]), ("Risk Management", [3, 4])] : Scores).length : ℕ) : ℚ)) :=
  ⟨⟨by decide, by decide, by decide⟩,
   avgScore_eq_mean_of_uniform [("Governance", [1, 2]), ("Risk Management", [3, 4])] 2
     (by decide) (by decide) (by decide)⟩

/-- C4: after a Summary run whose `domain_averages` succeeded, the stored
recommendations table is exactly the table built from the aggregator's
output, Generate Report consumes that stored table unchanged (it
recomputes nothing), and each PDF line is the table's own domain,
recommendation and average, the average formatted to two decimals — so
the numbers the user saw and the numbers in the report are the same
values under the same formatting. -/
theorem report_consumes_summary_table (s s' : Session)
    (das : List (String × ℚ)) (hda : domainAverages s.scores = some das)
    (h : runSummary s = some s') :
    s'.recs_table = some (mkRecsTable das) ∧
    generateReport s' = Except.ok (reportLines (mkRecsTable das)) ∧
    reportLines (mkRecsTable das)
      = das.map (fun p =>
          p.1 ++ ": " ++ recommendation p.2 ++ " (" ++ fmt2 p.2 ++ ")") := by
  rw [runSummary, hda] at h
  injection h with h
  subst h
  refine ⟨rfl, rfl, ?_⟩
  rw [reportLines, mkRecsTable, List.map_map]
  rfl

/-- C4 witness: one Governance domain scored [0,1,2,3]; the Summary stores
the table for average 1.5 and the report emits exactly its formatted
line. -/
theorem report_consumes_summary_table_witness :
    (domainAverages [("Governance", [0, 1, 2, 3])]
        = some [("Governance", listAvg [0, 1, 2, 3])] ∧
      runSummary
          { sector := "Energy", scores := [("Governance", [0, 1, 2, 3])],
            fig_summary := false, fig_heatmap := false, recs_table := none }
        = some
          { sector := "Energy", scores := [("Governance", [0, 1, 2, 3])],
            fig_summary := true, fig_heatmap := true,
            recs_table := some (mkRecsTable [("Governance", listAvg [0, 1, 2, 3])]) }) ∧
    (({ sector := "Energy", scores := [("Governance", [0, 1, 2, 3])],
        fig_summary := true, fig_heatmap := true,
        recs_table := some (mkRecsTable [("Governance", listAvg [0, 1, 2, 3])]) } :
          Session).recs_table
        = some (mkRecsTable [("Governance", listAvg [0, 1, 2, 3])]) ∧
      generateReport
          { sector := "Energy", scores := [("Governance", [0, 1, 2, 3])],
            fig_summary := true, fig_heatmap := true,
            recs_table := some (mkRecsTable [("Governance", listAvg [0, 1, 2, 3])]) }
        = Except.ok (reportLines (mkRecsTable [("Governance", listAvg [0, 1, 2, 3])])) ∧
      reportLines (mkRecsTable [("Governance", listAvg [0, 1, 2, 3])])
        = [("Governance", listAvg [0, 1, 2, 3])].map (fun p =>
            p.1 ++ ": " ++ recommendation p.2 ++ " (" ++ fmt2 p.2 ++ ")")) :=
  ⟨⟨by simp [domainAverages], by simp [runSummary, domainAverages]⟩,
   report_consumes_summary_table
     { sector := "Energy", scores := [("Governance", [0, 1, 2, 3])],
       fig_summary := false, fig_heatmap := false, recs_table := none }
     { sector := "Energy", scores := [("Governance", [0, 1, 2, 3])],
       fig_summary := true, fig_heatmap := true,
       recs_table := some (mkRecsTable [("Governance", listAvg [0, 1, 2, 3])]) }
     [("Governance", listAvg [0, 1, 2, 3])]
     (by simp [domainAverages]) (by simp [runSummary, domainAverages])⟩

end CMM
